import Mathlib

/-!
Shallow embedding of the SRR Farms order subsystem: the Express orders router
(`server/routes/orders.js`, bundled in `src/src/App.tsx` after the React shell)
and the client-side auth context (`src/src/context/AuthContext.tsx`).

Conventions of the embedding:
* MongoDB document ids are natural numbers.
* Currency amounts are natural numbers of integer currency units, matching the
  integral rupee prices used throughout the repository.
* A product's stock is an `Int`: the Mongo `$inc` update is an unconditional
  subtraction that can drive the stored value negative, so the embedding must
  not truncate at zero.
* Timestamps (`Date.now()`, `createdAt`, `deliveredAt`) are natural numbers.
* Fallible handlers return an explicit response constructor per HTTP outcome,
  paired with the post-state of the store.
-/

namespace SSD

/-- A document of the `products` collection: `_id`, `name`, `price`, `stock`. -/
structure Product where
  pid : Nat
  name : String
  price : Nat
  stock : Int
deriving DecidableEq, Repr

/-- The user fields read by `POST /api/orders` (`User.findById`). -/
structure UserDoc where
  uid : Nat
  uname : String
  email : String
  phone : String
deriving DecidableEq, Repr

/-- A cart line item as the handler sees it after
`Cart.findOne({user}).populate(\x27items.product\x27)`: the `product` field is the
live product document, `quantity`, the captured unit `price` and the line
`total`. -/
structure CartItem where
  product : Product
  quantity : Nat
  price : Nat
  lineTotal : Nat
deriving DecidableEq, Repr

/-- The cart document: line items plus the stored derived `subtotal`. -/
structure Cart where
  items : List CartItem
  subtotal : Nat
deriving DecidableEq, Repr

/-- An order line item as built by the handler (`orderItems`): the product id,
quantity, price and line total copied from the cart. -/
structure OrderItem where
  product : Nat
  quantity : Nat
  price : Nat
  lineTotal : Nat
deriving DecidableEq, Repr

/-- A document of the `orders` collection, restricted to the fields the
claims touch. `status` is a `String` because the router can store arbitrary
strings in it (see `updateStatusHandler1`). -/
structure Order where
  oid : Nat
  orderNumber : String
  userId : Nat
  customerName : String
  customerEmail : String
  customerPhone : String
  items : List OrderItem
  subtotal : Nat
  shipping : Nat
  tax : Nat
  total : Nat
  paymentMethod : String
  paymentStatus : String
  status : String
  trackingNumber : Option String
  estimatedDelivery : Option Nat
  deliveredAt : Option Nat
  createdAt : Nat
deriving DecidableEq, Repr

/-! ## Order creation: POST /api/orders -/

/-- `Math.round(cart.subtotal * 0.05)` computed exactly over the naturals:
`subtotal * 0.05 = subtotal / 20`, and JavaScript `Math.round` rounds half
up, so the result is `(subtotal + 10) / 20` in truncating division. -/
def roundTax (subtotal : Nat) : Nat :=
  (subtotal + 10) / 20

/-- `Product.findByIdAndUpdate(pid, { $inc: { stock: -qty } })`: subtract
`qty` from the stock of the product with id `pid`. -/
def decrementStock (products : List Product) (pid : Nat) (qty : Nat) : List Product :=
  products.map (fun p => if p.pid == pid then { p with stock := p.stock - qty } else p)

/-- The stock-update loop `for (const item of cart.items) ...` run after the
order is saved: one `$inc` per cart line, in cart order. -/
def applyDecrements (products : List Product) (items : List CartItem) : List Product :=
  items.foldl (fun ps it => decrementStock ps it.product.pid it.quantity) products

/-- Total quantity the cart orders for product id `pid` (summed over all cart
lines referencing it). -/
def orderedQty (items : List CartItem) (pid : Nat) : Nat :=
  ((items.filter (fun it => it.product.pid == pid)).map (fun it => it.quantity)).sum

/-- Modelled from the spec: `Cart.clearCart()` is a method of the Cart model
(`server/models/Cart.js`), whose source is not part of the bundle; the spec
says clearing removes all line items while leaving the Cart document owned by
the user, with `subtotal` derived over the (now empty) lines. -/
def clearCart (c : Cart) : Cart :=
  { c with items := [], subtotal := 0 }

/-- The HTTP outcomes of `POST /api/orders`. `badRequest` is the 400 response
with its `message` body, `notFoundUser` the 404, `created` the 201 with the
persisted order. -/
inductive CreateResp where
  | badRequest (message : String)
  | notFoundUser
  | created (order : Order)
deriving DecidableEq, Repr

/-- Post-state of `POST /api/orders`: products, the user's cart, orders. -/
structure OrdersStore where
  products : List Product
  cart : Option Cart
  orders : List Order
deriving DecidableEq, Repr

/-- The `POST /api/orders` handler body. Faithful transcription:
1. `User.findById` — 404 when absent;
2. `Cart.findOne` — 400 "Cart is empty" when absent or without items;
3. the stock-validation loop returns 400 naming the product at the *first*
   line whose live stock is below the requested quantity, before any mutation;
4. otherwise build `orderItems`, compute `shipping = 50`,
   `tax = Math.round(subtotal * 0.05)`, `total = subtotal + shipping + tax`,
   save the order (status and payment status `pending`, order number from the
   timestamp and a random suffix), run the stock decrements, clear the cart.
The order's `status := "pending"` is modelled from the spec: the Order model
with its schema default is not in the bundle, and the spec fixes new orders to
the `pending` fulfillment status. -/
def createOrderHandler (user : Option UserDoc) (store : OrdersStore)
    (now : Nat) (rand : String) (paymentMethod : String) (oid : Nat) :
    CreateResp × OrdersStore :=
  match user with
  | none => (CreateResp.notFoundUser, store)
  | some u =>
    match store.cart with
    | none => (CreateResp.badRequest "Cart is empty", store)
    | some cart =>
      if cart.items.isEmpty then
        (CreateResp.badRequest "Cart is empty", store)
      else
        match cart.items.find? (fun it => decide (it.product.stock < (it.quantity : Int))) with
        | some it =>
          (CreateResp.badRequest ("Insufficient stock for " ++ it.product.name), store)
        | none =>
          let orderItems := cart.items.map (fun it =>
            { product := it.product.pid, quantity := it.quantity,
              price := it.price, lineTotal := it.lineTotal : OrderItem })
          let shipping := 50
          let tax := roundTax cart.subtotal
          let total := cart.subtotal + shipping + tax
          let orderNumber := "ORD-" ++ toString now ++ "-" ++ rand
          let order : Order :=
            { oid := oid, orderNumber := orderNumber, userId := u.uid,
              customerName := u.uname, customerEmail := u.email,
              customerPhone := u.phone, items := orderItems,
              subtotal := cart.subtotal, shipping := shipping, tax := tax,
              total := total, paymentMethod := paymentMethod,
              paymentStatus := "pending", status := "pending",
              trackingNumber := none, estimatedDelivery := none,
              deliveredAt := none, createdAt := now }
          (CreateResp.created order,
            { products := applyDecrements store.products cart.items,
              cart := some (clearCart cart),
              orders := store.orders ++ [order] })

/-! ## Status updates: PUT /api/orders/:id/status

The router registers **two** handlers on the same route. Express dispatches a
request to the first matching handler; neither handler calls `next()`, so the
first registered handler always answers and the second is unreachable. -/

/-- Outcomes of the status route: 200 with the updated order, 404, or the 400
"Invalid status" response of the second handler. -/
inductive StatusResp where
  | okResp (order : Order)
  | notFound
  | invalidStatus
deriving DecidableEq, Repr

/-- `Order.findByIdAndUpdate(oid, f, { new: true })` as a pointwise update of
the collection. -/
def updateOrderById (orders : List Order) (oid : Nat) (f : Order → Order) : List Order :=
  orders.map (fun o => if o.oid == oid then f o else o)

/-- The `updateData` object built by the first status handler: always sets
`status`; sets `trackingNumber` when the body supplies a truthy (non-empty)
value, `estimatedDelivery` when supplied, and stamps `deliveredAt` with the
current time exactly when the new status is `delivered`. -/
def applyStatusUpdate (status : String) (trackingNumber : Option String)
    (estimatedDelivery : Option Nat) (now : Nat) (o : Order) : Order :=
  let o1 := { o with status := status }
  let o2 := match trackingNumber with
    | some t => if t == "" then o1 else { o1 with trackingNumber := some t }
    | none => o1
  let o3 := match estimatedDelivery with
    | some d => { o2 with estimatedDelivery := some d }
    | none => o2
  if status == "delivered" then { o3 with deliveredAt := some now } else o3

/-- A handler on PUT /:id/status: orders, order id, body status, optional
tracking number and estimated delivery, current time. -/
def StatusHandler : Type :=
  List Order → Nat → String → Option String → Option Nat → Nat → StatusResp × List Order

/-- First registered `PUT /:id/status` handler (App.tsx lines 388-423): no
validation of the status value; `findByIdAndUpdate` with `updateData`,
404 when the order is absent. -/
def updateStatusHandler1 : StatusHandler :=
  fun orders oid status trackingNumber estimatedDelivery now =>
    match orders.find? (fun o => o.oid == oid) with
    | some o =>
      (StatusResp.okResp (applyStatusUpdate status trackingNumber estimatedDelivery now o),
        updateOrderById orders oid (applyStatusUpdate status trackingNumber estimatedDelivery now))
    | none => (StatusResp.notFound, orders)

/-- The enumerated status set of the second handler. -/
def validStatuses : List String :=
  ["pending", "confirmed", "shipped", "delivered", "cancelled"]

/-- Second registered `PUT /:id/status` handler (App.tsx lines 609-651):
rejects a status outside `validStatuses` with 400 before touching the store,
then `findByIdAndUpdate` setting only the status field. -/
def updateStatusHandler2 : StatusHandler :=
  fun orders oid status _ _ _ =>
    if !(validStatuses.contains status) then
      (StatusResp.invalidStatus, orders)
    else
      match orders.find? (fun o => o.oid == oid) with
      | some o =>
        (StatusResp.okResp { o with status := status },
          updateOrderById orders oid (fun x => { x with status := status }))
      | none => (StatusResp.notFound, orders)

/-- The handlers mounted on PUT /:id/status, in registration order. -/
def putStatusHandlers : List StatusHandler :=
  [updateStatusHandler1, updateStatusHandler2]

/-- Express dispatch: the first registered handler on the matching route
answers the request (no handler here calls `next()`). -/
def dispatchPutStatus : StatusHandler :=
  match putStatusHandlers with
  | [] => fun orders _ _ _ _ _ => (StatusResp.notFound, orders)
  | h :: _ => h

/-! ## Statistics: GET /api/orders/admin/stats -/

/-- The `$match` set of the revenue aggregation. -/
def revenueStatuses : List String :=
  ["confirmed", "shipped", "delivered"]

/-- The revenue aggregation: `$match` on status in `revenueStatuses`, then
`$group` with `$sum: $total`. -/
def totalRevenue (orders : List Order) : Nat :=
  ((orders.filter (fun o => revenueStatuses.contains o.status)).map (fun o => o.total)).sum

/-! ## Admin order listing: GET /api/orders/admin/all and /admin/all-public -/

/-- Raw query parameters of the listing routes; `none` models an absent
parameter (the JS destructuring defaults then apply). -/
structure RawQuery where
  page : Option Nat
  limit : Option Nat
  status : Option String
  search : Option String
  startDate : Option Nat
  endDate : Option Nat
deriving DecidableEq, Repr

/-- Case-sensitive substring test on character lists, used to model the
`$regex` matches. -/
def containsSubAux (pat : List Char) : List Char → Bool
  | [] => pat.isEmpty
  | c :: rest => pat.isPrefixOf (c :: rest) || containsSubAux pat rest

/-- Case-insensitive substring test: `{ $regex: search, $options: "i" }` for a
literal search string. -/
def containsCI (hay pat : String) : Bool :=
  containsSubAux pat.toLower.toList hay.toLower.toList

/-- The Mongo query object built by both listing handlers, as a predicate on
an order: status filter (skipped for a falsy or "all" status), `$or` of
case-insensitive regex matches over order number and customer name/email/
phone, and the `createdAt` `$gte`/`$lte` range. -/
def matchesQuery (q : RawQuery) (o : Order) : Bool :=
  (match q.status with
    | some s => if s == "" || s == "all" then true else o.status == s
    | none => true) &&
  (match q.search with
    | some s =>
      if s == "" then true
      else containsCI o.orderNumber s || containsCI o.customerName s ||
        containsCI o.customerEmail s || containsCI o.customerPhone s
    | none => true) &&
  (match q.startDate with
    | some d => decide (d ≤ o.createdAt)
    | none => true) &&
  (match q.endDate with
    | some d => decide (o.createdAt ≤ d)
    | none => true)

/-- Newest-first order on orders, `sort({ createdAt: -1 })`. -/
def moreRecent (a b : Order) : Prop :=
  b.createdAt ≤ a.createdAt

instance : DecidableRel moreRecent :=
  fun a b => Nat.decLe b.createdAt a.createdAt

instance : IsTotal Order moreRecent :=
  ⟨fun a b => (Nat.le_total b.createdAt a.createdAt).elim Or.inl Or.inr⟩

instance : IsTrans Order moreRecent :=
  ⟨fun _ _ _ hab hbc => Nat.le_trans hbc hab⟩

/-- The find with `sort({ createdAt: -1 })`: the matching orders, newest
first. -/
def sortByRecency (orders : List Order) : List Order :=
  List.insertionSort moreRecent orders

/-- The `pagination` object of the listing responses. -/
structure Pagination where
  currentPage : Nat
  totalPages : Nat
  totalOrders : Nat
  hasNext : Bool
  hasPrev : Bool
deriving DecidableEq, Repr

/-- A listing response: the order page plus pagination metadata. The
`.select`/`.populate` projections only shape the serialized fields and are not
modelled. -/
structure AdminAllResp where
  orders : List Order
  pagination : Pagination
deriving DecidableEq, Repr

/-- `GET /api/orders/admin/all` (App.tsx lines 493-561), behind
`authenticateToken` and `requireAdmin`: defaults `page = 1`, `limit = 50`,
`skip = (page - 1) * limit`, the filtered orders sorted newest first with
`skip`/`limit` applied, `countDocuments(query)` for the total, and
`Math.ceil(totalOrders / limit)`, `page * limit < totalOrders`, `page > 1`
for the metadata. -/
def adminAllHandler (orders : List Order) (q : RawQuery) : AdminAllResp :=
  let page := q.page.getD 1
  let limit := q.limit.getD 50
  let skip := (page - 1) * limit
  let matching := orders.filter (matchesQuery q)
  let pageOrders := ((sortByRecency matching).drop skip).take limit
  let totalOrders := matching.length
  { orders := pageOrders,
    pagination :=
      { currentPage := page,
        totalPages := (totalOrders + limit - 1) / limit,
        totalOrders := totalOrders,
        hasNext := decide (page * limit < totalOrders),
        hasPrev := decide (1 < page) } }

/-- `GET /api/orders/admin/all-public` (App.tsx lines 426-490), registered
with no middleware: same defaults, query build, sort, skip/limit and
pagination metadata as the admin-only route. -/
def adminAllPublicHandler (orders : List Order) (q : RawQuery) : AdminAllResp :=
  let page := q.page.getD 1
  let limit := q.limit.getD 50
  let skip := (page - 1) * limit
  let matching := orders.filter (matchesQuery q)
  let pageOrders := ((sortByRecency matching).drop skip).take limit
  let totalOrders := matching.length
  { orders := pageOrders,
    pagination :=
      { currentPage := page,
        totalPages := (totalOrders + limit - 1) / limit,
        totalOrders := totalOrders,
        hasNext := decide (page * limit < totalOrders),
        hasPrev := decide (1 < page) } }

/-- A route registration of the orders router: method, path and the
middleware chain in front of the handler. -/
structure Route where
  method : String
  path : String
  middlewares : List String
deriving DecidableEq, Repr

/-- The registrations of the orders router, in source order. -/
def orderRoutes : List Route :=
  [ { method := "GET", path := "/", middlewares := ["authenticateToken"] },
    { method := "GET", path := "/:id", middlewares := ["authenticateToken"] },
    { method := "POST", path := "/", middlewares := ["authenticateToken"] },
    { method := "PUT", path := "/:id/status",
      middlewares := ["authenticateToken", "requireAdmin"] },
    { method := "GET", path := "/admin/all-public", middlewares := [] },
    { method := "GET", path := "/admin/all",
      middlewares := ["authenticateToken", "requireAdmin"] },
    { method := "GET", path := "/admin/stats",
      middlewares := ["authenticateToken", "requireAdmin"] },
    { method := "PUT", path := "/:id/status",
      middlewares := ["authenticateToken", "requireAdmin"] } ]

/-! ## Client API helper: apiCall (AuthContext.tsx lines 59-120)

The fetch of each attempt is modelled by an oracle from the attempt index to
its outcome: an HTTP response with a status code, or a network failure (the
`TypeError("Failed to fetch")` a failed `fetch` rejects with). The function
returns the surfaced result together with the list of backoff waits (in
milliseconds) performed before it. -/

/-- Outcome of one `fetch` attempt. -/
inductive FetchOutcome where
  | resp (status : Nat)
  | netfail
deriving DecidableEq, Repr

/-- What `apiCall` surfaces to its caller: a resolved response or a thrown
error message. -/
inductive ApiResult where
  | ok (status : Nat)
  | err (message : String)
deriving DecidableEq, Repr

/-- `response.ok`: status in the 200-299 range. -/
def respOk (status : Nat) : Bool :=
  decide (200 ≤ status) && decide (status < 300)

/-- The retry loop of `apiCall`, from attempt index `attempt`, with enough
fuel for the remaining iterations. Per iteration:
* HTTP 429 before the last attempt: wait `2 ^ attempt * 1000` ms and retry;
* otherwise a non-ok response throws — "Server is busy. Please try again in a
  few minutes." for 429, `HTTP <status>` otherwise — and a thrown `Error` is
  not a `TypeError`, so the catch rethrows it immediately;
* an ok response resolves;
* a network failure on the last attempt surfaces the backend-unavailable
  message, otherwise waits `2 ^ attempt * 1000` ms and retries. -/
def apiCallLoop (outcomes : Nat → FetchOutcome) (retryCount : Nat) :
    Nat → Nat → ApiResult × List Nat
  | _, 0 => (ApiResult.err "Maximum retry attempts exceeded", [])
  | attempt, fuel + 1 =>
    match outcomes attempt with
    | FetchOutcome.resp status =>
      if status == 429 && decide (attempt < retryCount) then
        let wait := 2 ^ attempt * 1000
        let rest := apiCallLoop outcomes retryCount (attempt + 1) fuel
        (rest.1, wait :: rest.2)
      else if !(respOk status) then
        if status == 429 then
          (ApiResult.err "Server is busy. Please try again in a few minutes.", [])
        else
          (ApiResult.err ("HTTP " ++ toString status), [])
      else
        (ApiResult.ok status, [])
    | FetchOutcome.netfail =>
      if attempt == retryCount then
        (ApiResult.err
          "Backend server is not available. Please deploy the backend first or use demo mode.",
          [])
      else
        let wait := 2 ^ attempt * 1000
        let rest := apiCallLoop outcomes retryCount (attempt + 1) fuel
        (rest.1, wait :: rest.2)

/-- `apiCall` with its default `retryCount = 3`: attempts 0 through
`retryCount`. -/
def apiCall (outcomes : Nat → FetchOutcome) (retryCount : Nat := 3) :
    ApiResult × List Nat :=
  apiCallLoop outcomes retryCount 0 (retryCount + 1)

/-! ## Client auth state: signIn / signUp / signOut
(AuthContext.tsx lines 169-252)

`localStorage` is modelled by its two keys; the user document is modelled by
its serialized JSON string, so the in-memory `user` state and the stored
`user` key carry the same representation. -/

/-- The two local-storage keys the auth context manages. -/
structure LocalStorage where
  token : Option String
  user : Option String
deriving DecidableEq, Repr

/-- The in-memory React state: `user` and `jwt`. -/
structure AuthState where
  user : Option String
  jwt : Option String
deriving DecidableEq, Repr

/-- A resolved auth API response: `response.ok`, `data.success`, and the
`token`/`user` payload. -/
structure AuthApiResp where
  respOk : Bool
  success : Bool
  token : String
  userData : String
deriving DecidableEq, Repr

/-- The effect of `signIn` on storage and state, for a given `apiCall`
outcome: on `response.ok && data.success` set both keys and both state
fields; on a failed response or a thrown error, touch nothing. -/
def signIn (ls : LocalStorage) (st : AuthState) (outcome : Except String AuthApiResp) :
    LocalStorage × AuthState × Bool :=
  match outcome with
  | Except.error _ => (ls, st, false)
  | Except.ok r =>
    if r.respOk && r.success then
      ({ token := some r.token, user := some r.userData },
        { user := some r.userData, jwt := some r.token }, true)
    else
      (ls, st, false)

/-- The effect of `signUp`: identical storage/state behaviour to `signIn`
(register instead of login endpoint). -/
def signUp (ls : LocalStorage) (st : AuthState) (outcome : Except String AuthApiResp) :
    LocalStorage × AuthState × Bool :=
  match outcome with
  | Except.error _ => (ls, st, false)
  | Except.ok r =>
    if r.respOk && r.success then
      ({ token := some r.token, user := some r.userData },
        { user := some r.userData, jwt := some r.token }, true)
    else
      (ls, st, false)

/-- The effect of `signOut`: remove both keys, clear both state fields. -/
def signOut (_ls : LocalStorage) (_st : AuthState) : LocalStorage × AuthState :=
  ({ token := none, user := none }, { user := none, jwt := none })

/-- The both-or-neither invariant on the storage keys. -/
def storageConsistent (ls : LocalStorage) : Prop :=
  ls.token.isSome ↔ ls.user.isSome

/-- The in-memory state mirrors the storage keys. -/
def mirrors (ls : LocalStorage) (st : AuthState) : Prop :=
  st.jwt = ls.token ∧ st.user = ls.user

/-! ## Shared fixtures and helper lemmas -/

/-- A concrete persisted order used by the concrete evaluations below. -/
def sampleOrder : Order :=
  { oid := 1, orderNumber := "ORD-0-A", userId := 7, customerName := "Asha",
    customerEmail := "asha@example.com", customerPhone := "9999",
    items := [], subtotal := 1000, shipping := 50, tax := 50, total := 1100,
    paymentMethod := "upi", paymentStatus := "pending", status := "pending",
    trackingNumber := none, estimatedDelivery := none, deliveredAt := none,
    createdAt := 0 }

lemma contains_revenueStatuses (s : String) :
    revenueStatuses.contains s =
      decide (s = "confirmed" ∨ s = "shipped" ∨ s = "delivered") := by
  refine Bool.eq_iff_iff.mpr ?_
  simp [revenueStatuses]

/-! ## Claims -/

/-- C1: the spec says a status outside {pending, confirmed, shipped,
delivered, cancelled} is rejected with HTTP 400 and the order left unchanged.
The route `PUT /:id/status` is registered twice; Express dispatches to the
first handler, which performs no validation, so an out-of-set status is
accepted with HTTP 200 and stored — the validating second handler is dead
code. This evaluation exhibits the divergence at a concrete input and shows
the shadowed handler would have rejected it. -/
theorem invalid_status_is_accepted_by_registered_route :
    dispatchPutStatus [sampleOrder] 1 "not-a-status" none none 5 =
      (StatusResp.okResp { sampleOrder with status := "not-a-status" },
        [{ sampleOrder with status := "not-a-status" }]) ∧
    updateStatusHandler2 [sampleOrder] 1 "not-a-status" none none 5 =
      (StatusResp.invalidStatus, [sampleOrder]) := by
  constructor
  · rfl
  · rfl

/-- C5: the statistics endpoint's total revenue is the sum of the `total`
field over exactly the orders whose status is confirmed, shipped or
delivered; a pending or cancelled order contributes nothing, and an order in
the revenue set contributes exactly its total. -/
theorem revenue_sums_confirmed_shipped_delivered (orders : List Order) (o : Order) :
    totalRevenue orders =
      ((orders.filter (fun x =>
          decide (x.status = "confirmed" ∨ x.status = "shipped" ∨ x.status = "delivered"))).map
        (fun x => x.total)).sum ∧
    (o.status = "pending" ∨ o.status = "cancelled" →
      totalRevenue (o :: orders) = totalRevenue orders) ∧
    (o.status = "confirmed" ∨ o.status = "shipped" ∨ o.status = "delivered" →
      totalRevenue (o :: orders) = o.total + totalRevenue orders) := by
  refine ⟨?_, ?_, ?_⟩
  · unfold totalRevenue
    congr 2
    apply List.filter_congr
    intro x _
    exact contains_revenueStatuses x.status
  · intro h
    have hmem : o.status ∉ revenueStatuses := by
      rcases h with h | h <;> rw [h] <;> decide
    simp [totalRevenue, List.filter_cons, hmem]
  · intro h
    have hmem : o.status ∈ revenueStatuses := by
      rcases h with h | h | h <;> rw [h] <;> decide
    simp [totalRevenue, List.filter_cons, hmem]

/-- C5 witness: a pending order contributes nothing and a delivered order
contributes its total, over a concrete store. -/
theorem revenue_sums_confirmed_shipped_delivered_witness :
    totalRevenue ({ sampleOrder with status := "pending" } ::
        [{ sampleOrder with oid := 2, status := "delivered" }]) =
      totalRevenue [{ sampleOrder with oid := 2, status := "delivered" }] ∧
    totalRevenue ({ sampleOrder with oid := 3, status := "delivered", total := 40 } ::
        [{ sampleOrder with oid := 2, status := "delivered" }]) =
      40 + totalRevenue [{ sampleOrder with oid := 2, status := "delivered" }] := by
  constructor
  · exact (revenue_sums_confirmed_shipped_delivered
      [{ sampleOrder with oid := 2, status := "delivered" }]
      { sampleOrder with status := "pending" }).2.1 (Or.inl rfl)
  · exact (revenue_sums_confirmed_shipped_delivered
      [{ sampleOrder with oid := 2, status := "delivered" }]
      { sampleOrder with oid := 3, status := "delivered", total := 40 }).2.2
      (Or.inr (Or.inr rfl))

/-- C9: the public listing route computes exactly what the admin-only one
does — the two handlers agree on every store and query — and the route table
registers `/admin/all-public` with an empty middleware chain while
`/admin/all` sits behind `authenticateToken` and `requireAdmin`. -/
theorem public_listing_equals_admin_listing :
    (∀ (orders : List Order) (q : RawQuery),
      adminAllPublicHandler orders q = adminAllHandler orders q) ∧
    (orderRoutes.find? (fun r => r.path == "/admin/all-public")).map Route.middlewares =
      some [] ∧
    (orderRoutes.find? (fun r => r.path == "/admin/all")).map Route.middlewares =
      some ["authenticateToken", "requireAdmin"] := by
  refine ⟨fun orders q => rfl, ?_, ?_⟩
  · rfl
  · rfl

/-- C10: signIn and signUp touch the storage keys only on success, where they
set both together and the in-memory state to the same values; signOut removes
both together and clears the state. Hence the both-or-neither invariant on
the keys and the state-mirrors-storage property are preserved by every one of
the three operations. -/
theorem auth_ops_preserve_storage_pairing (ls : LocalStorage) (st : AuthState)
    (outcome : Except String AuthApiResp)
    (hc : storageConsistent ls) (hm : mirrors ls st) :
    (storageConsistent (signIn ls st outcome).1 ∧
      mirrors (signIn ls st outcome).1 (signIn ls st outcome).2.1) ∧
    (storageConsistent (signUp ls st outcome).1 ∧
      mirrors (signUp ls st outcome).1 (signUp ls st outcome).2.1) ∧
    (∀ r, outcome = Except.ok r → r.respOk = true → r.success = true →
      (signIn ls st outcome).1 = { token := some r.token, user := some r.userData } ∧
      (signIn ls st outcome).2.1 = { user := some r.userData, jwt := some r.token } ∧
      (signUp ls st outcome).1 = { token := some r.token, user := some r.userData }) ∧
    ((signIn ls st outcome).2.2 = false →
      (signIn ls st outcome).1 = ls ∧ (signIn ls st outcome).2.1 = st) ∧
    ((signUp ls st outcome).2.2 = false →
      (signUp ls st outcome).1 = ls ∧ (signUp ls st outcome).2.1 = st) ∧
    (signOut ls st = ({ token := none, user := none }, { user := none, jwt := none }) ∧
      storageConsistent (signOut ls st).1 ∧
      mirrors (signOut ls st).1 (signOut ls st).2) := by
  have hout : signOut ls st = ({ token := none, user := none }, { user := none, jwt := none }) :=
    rfl
  have houtC : storageConsistent (signOut ls st).1 := by
    simp [signOut, storageConsistent]
  have houtM : mirrors (signOut ls st).1 (signOut ls st).2 := ⟨rfl, rfl⟩
  rcases outcome with e | r
  · refine ⟨⟨hc, hm⟩, ⟨hc, hm⟩, ?_, fun _ => ⟨rfl, rfl⟩, fun _ => ⟨rfl, rfl⟩, hout, houtC, houtM⟩
    intro r hr
    exact absurd hr (by simp)
  · by_cases hok : r.respOk = true ∧ r.success = true
    · have hcond : (r.respOk && r.success) = true := by
        simp [hok.1, hok.2]
      refine ⟨?_, ?_, ?_, ?_, ?_, hout, houtC, houtM⟩
      · constructor
        · simp [signIn, hcond, storageConsistent]
        · exact ⟨by simp [signIn, hcond], by simp [signIn, hcond]⟩
      · constructor
        · simp [signUp, hcond, storageConsistent]
        · exact ⟨by simp [signUp, hcond], by simp [signUp, hcond]⟩
      · intro r2 hr2 _ _
        have hr2e : r = r2 := by
          injection hr2
        subst hr2e
        refine ⟨by simp [signIn, hcond], by simp [signIn, hcond], by simp [signUp, hcond]⟩
      · intro hfalse
        exact absurd hfalse (by simp [signIn, hcond])
      · intro hfalse
        exact absurd hfalse (by simp [signUp, hcond])
    · have hcond : (r.respOk && r.success) = false := by
        cases hro : r.respOk
        · simp
        · cases hrs : r.success
          · simp
          · exact absurd ⟨hro, hrs⟩ hok
      refine ⟨?_, ?_, ?_, ?_, ?_, hout, houtC, houtM⟩
      · constructor
        · simpa [signIn, hcond] using hc
        · simpa [signIn, hcond] using hm
      · constructor
        · simpa [signUp, hcond] using hc
        · simpa [signUp, hcond] using hm
      · intro r2 hr2 hro hrs
        have hr2e : r = r2 := by
          injection hr2
        subst hr2e
        exact absurd ⟨hro, hrs⟩ hok
      · intro _
        exact ⟨by simp [signIn, hcond], by simp [signIn, hcond]⟩
      · intro _
        exact ⟨by simp [signUp, hcond], by simp [signUp, hcond]⟩

/-- C10 witness: the theorem applied to the signed-out pre-state and a
successful login response. -/
theorem auth_ops_preserve_storage_pairing_witness :
    storageConsistent
      (signIn { token := none, user := none } { user := none, jwt := none }
        (Except.ok { respOk := true, success := true, token := "tok", userData := "usr" })).1 ∧
    mirrors
      (signIn { token := none, user := none } { user := none, jwt := none }
        (Except.ok { respOk := true, success := true, token := "tok", userData := "usr" })).1
      (signIn { token := none, user := none } { user := none, jwt := none }
        (Except.ok { respOk := true, success := true, token := "tok", userData := "usr" })).2.1 := by
  have h := auth_ops_preserve_storage_pairing { token := none, user := none }
    { user := none, jwt := none }
    (Except.ok { respOk := true, success := true, token := "tok", userData := "usr" })
    (by simp [storageConsistent]) ⟨rfl, rfl⟩
  exact ⟨h.1.1, h.1.2⟩

/-- C8: with the default retry cap of 3, a call whose every attempt is rate
limited waits 1s, 2s, then 4s and then surfaces the server-busy error; a call
whose every attempt fails at the network layer backs off the same way and
surfaces the distinct backend-unavailable message; a non-retryable rejected
response (non-ok status other than 429) propagates immediately with no
retry and no wait. -/
theorem api_call_backoff_and_error_messages
    (o429 onet orej : Nat → FetchOutcome) (s : Nat)
    (h429 : ∀ i, o429 i = FetchOutcome.resp 429)
    (hnet : ∀ i, onet i = FetchOutcome.netfail)
    (hrej : orej 0 = FetchOutcome.resp s)
    (hsok : respOk s = false) (hs429 : s ≠ 429) :
    apiCall o429 =
      (ApiResult.err "Server is busy. Please try again in a few minutes.",
        [1000, 2000, 4000]) ∧
    apiCall onet =
      (ApiResult.err
        "Backend server is not available. Please deploy the backend first or use demo mode.",
        [1000, 2000, 4000]) ∧
    ("Server is busy. Please try again in a few minutes." ≠
      "Backend server is not available. Please deploy the backend first or use demo mode.") ∧
    apiCall orej = (ApiResult.err ("HTTP " ++ toString s), []) := by
  have hb : (s == 429) = false := by
    simp [hs429]
  refine ⟨?_, ?_, by decide, ?_⟩
  · simp [apiCall, apiCallLoop, h429 0, h429 1, h429 2, h429 3, respOk]
  · simp [apiCall, apiCallLoop, hnet 0, hnet 1, hnet 2, hnet 3]
  · simp [apiCall, apiCallLoop, hrej, hb, hsok]

/-- C8 witness: the theorem at the constant-429 oracle, the constant network
failure oracle, and an immediate HTTP 500 rejection. -/
theorem api_call_backoff_and_error_messages_witness :
    apiCall (fun _ => FetchOutcome.resp 429) =
      (ApiResult.err "Server is busy. Please try again in a few minutes.",
        [1000, 2000, 4000]) ∧
    apiCall (fun _ => FetchOutcome.netfail) =
      (ApiResult.err
        "Backend server is not available. Please deploy the backend first or use demo mode.",
        [1000, 2000, 4000]) ∧
    apiCall (fun _ => FetchOutcome.resp 500) =
      (ApiResult.err ("HTTP " ++ toString 500), []) := by
  have h := api_call_backoff_and_error_messages
    (fun _ => FetchOutcome.resp 429) (fun _ => FetchOutcome.netfail)
    (fun _ => FetchOutcome.resp 500) 500
    (fun _ => rfl) (fun _ => rfl) rfl (by decide) (by decide)
  exact ⟨h.1, h.2.1, h.2.2.2⟩

/-- C3: when order creation succeeds over a cart with subtotal `s`, the order
persists `shipping = 50`, `tax = roundTax s` — which is a nearest integer to
`s / 20 = 0.05 * s` (within half a unit, scaled by 20) — and
`total = s + 50 + tax`; the order also freezes the cart's subtotal. -/
theorem order_totals_formula (user : UserDoc) (store : OrdersStore) (cart : Cart)
    (now : Nat) (rand pm : String) (oid : Nat) (o : Order) (st2 : OrdersStore)
    (hcart : store.cart = some cart)
    (h : createOrderHandler (some user) store now rand pm oid = (CreateResp.created o, st2)) :
    o.shipping = 50 ∧
    o.tax = roundTax cart.subtotal ∧
    o.total = cart.subtotal + 50 + roundTax cart.subtotal ∧
    cart.subtotal ≤ 20 * o.tax + 10 ∧ 20 * o.tax ≤ cart.subtotal + 10 ∧
    o.subtotal = cart.subtotal := by
  rw [createOrderHandler, hcart] at h
  dsimp only [] at h
  by_cases he : cart.items.isEmpty
  · rw [if_pos he] at h
    exact absurd h (by simp)
  · rw [if_neg he] at h
    rcases hf : cart.items.find?
        (fun it => decide (it.product.stock < (it.quantity : Int))) with _ | it
    · rw [hf] at h
      simp only [Prod.mk.injEq, CreateResp.created.injEq] at h
      obtain ⟨ho, _⟩ := h
      subst ho
      refine ⟨rfl, rfl, rfl, ?_, ?_, rfl⟩
      · simp only [roundTax]
        omega
      · simp only [roundTax]
        omega
    · rw [hf] at h
      exact absurd h (by simp)

/-- A concrete user for the order-creation evaluations. -/
def sampleUser : UserDoc :=
  { uid := 7, uname := "Asha", email := "asha@example.com", phone := "9999" }

/-- A concrete product with stock 5. -/
def sampleProduct : Product :=
  { pid := 1, name := "Ghee", price := 500, stock := 5 }

/-- A second product, untouched by the sample cart. -/
def sampleProduct2 : Product :=
  { pid := 2, name := "Honey", price := 300, stock := 4 }

/-- A cart line ordering 2 units of the first product. -/
def sampleItem : CartItem :=
  { product := sampleProduct, quantity := 2, price := 500, lineTotal := 1000 }

/-- The sample cart: one line, subtotal 1000. -/
def sampleCart : Cart :=
  { items := [sampleItem], subtotal := 1000 }

/-- The sample store before checkout. -/
def sampleStore : OrdersStore :=
  { products := [sampleProduct, sampleProduct2], cart := some sampleCart, orders := [] }

/-- The order the handler builds from the sample store at time 0. -/
def sampleCreatedOrder : Order :=
  { oid := 9, orderNumber := "ORD-0-X", userId := 7, customerName := "Asha",
    customerEmail := "asha@example.com", customerPhone := "9999",
    items := [{ product := 1, quantity := 2, price := 500, lineTotal := 1000 }],
    subtotal := 1000, shipping := 50, tax := 50, total := 1100,
    paymentMethod := "upi", paymentStatus := "pending", status := "pending",
    trackingNumber := none, estimatedDelivery := none, deliveredAt := none,
    createdAt := 0 }

/-- The sample store after checkout: stock decremented, cart emptied, order
appended. -/
def sampleNewStore : OrdersStore :=
  { products := [{ sampleProduct with stock := 3 }, sampleProduct2],
    cart := some { sampleCart with items := [], subtotal := 0 },
    orders := [sampleCreatedOrder] }

/-- C3 witness: the spec example — subtotal 1000 gives shipping 50, tax 50,
total 1100. -/
theorem order_totals_formula_witness :
    sampleCreatedOrder.shipping = 50 ∧
    sampleCreatedOrder.tax = roundTax sampleCart.subtotal ∧
    sampleCreatedOrder.total = sampleCart.subtotal + 50 + roundTax sampleCart.subtotal ∧
    sampleCart.subtotal ≤ 20 * sampleCreatedOrder.tax + 10 ∧
    20 * sampleCreatedOrder.tax ≤ sampleCart.subtotal + 10 ∧
    sampleCreatedOrder.subtotal = sampleCart.subtotal := by
  exact order_totals_formula sampleUser sampleStore sampleCart 0 "X" "upi" 9
    sampleCreatedOrder sampleNewStore rfl (by decide)

/-- C2: when some cart line asks for more than its product's live stock, order
creation answers 400 with the insufficient-stock message naming such a
product, and the store — products, cart and orders — is returned exactly as it
was: no stock is mutated, no order is persisted, the cart is not cleared. -/
theorem insufficient_stock_rejects_without_mutation
    (user : UserDoc) (store : OrdersStore) (cart : Cart)
    (now : Nat) (rand pm : String) (oid : Nat)
    (hcart : store.cart = some cart)
    (hbad : ∃ it ∈ cart.items, it.product.stock < (it.quantity : Int)) :
    ∃ it ∈ cart.items, it.product.stock < (it.quantity : Int) ∧
      createOrderHandler (some user) store now rand pm oid =
        (CreateResp.badRequest ("Insufficient stock for " ++ it.product.name), store) := by
  have hsome : (cart.items.find?
      (fun it => decide (it.product.stock < (it.quantity : Int)))).isSome := by
    rw [List.find?_isSome]
    obtain ⟨it, hmem, hlt⟩ := hbad
    exact ⟨it, hmem, decide_eq_true hlt⟩
  rcases hf : cart.items.find?
      (fun it => decide (it.product.stock < (it.quantity : Int))) with _ | it
  · rw [hf] at hsome
    exact absurd hsome (by simp)
  · have hmem : it ∈ cart.items := List.mem_of_find?_eq_some hf
    have hp := List.find?_some hf
    have hlt : it.product.stock < (it.quantity : Int) := by
      simpa using hp
    have hne : cart.items.isEmpty = false := by
      cases hi : cart.items
      · rw [hi] at hmem
        exact absurd hmem (List.not_mem_nil it)
      · rfl
    refine ⟨it, hmem, hlt, ?_⟩
    simp [createOrderHandler, hcart, hne, hf]

/-- A product with stock 2. -/
def lowStockProduct : Product :=
  { pid := 3, name := "Butter", price := 200, stock := 2 }

/-- A cart line asking for 3 units of the stock-2 product. -/
def overdrawnItem : CartItem :=
  { product := lowStockProduct, quantity := 3, price := 200, lineTotal := 600 }

/-- A store whose cart overdraws the stock-2 product. -/
def overdrawnStore : OrdersStore :=
  { products := [lowStockProduct],
    cart := some { items := [overdrawnItem], subtotal := 600 },
    orders := [] }

/-- C2 witness: the spec example — stock 2, requested quantity 3 — rejected
with the message naming the product and the store unchanged. -/
theorem insufficient_stock_rejects_without_mutation_witness :
    ∃ it ∈ ({ items := [overdrawnItem], subtotal := 600 } : Cart).items,
      it.product.stock < (it.quantity : Int) ∧
        createOrderHandler (some sampleUser) overdrawnStore 0 "X" "upi" 9 =
          (CreateResp.badRequest ("Insufficient stock for " ++ it.product.name),
            overdrawnStore) := by
  exact insufficient_stock_rejects_without_mutation sampleUser overdrawnStore
    { items := [overdrawnItem], subtotal := 600 } 0 "X" "upi" 9 rfl
    ⟨overdrawnItem, by decide, by decide⟩

lemma applyStatusUpdate_status (s : String) (tn : Option String) (ed : Option Nat)
    (now : Nat) (o : Order) : (applyStatusUpdate s tn ed now o).status = s := by
  rcases tn with _ | t <;> rcases ed with _ | d <;>
    simp only [applyStatusUpdate] <;> split_ifs <;> rfl

lemma applyStatusUpdate_deliveredAt_stamped (tn : Option String) (ed : Option Nat)
    (now : Nat) (o : Order) :
    (applyStatusUpdate "delivered" tn ed now o).deliveredAt = some now := by
  rcases tn with _ | t <;> rcases ed with _ | d <;>
    simp only [applyStatusUpdate] <;> split_ifs <;> simp_all

lemma applyStatusUpdate_deliveredAt_preserved (s : String) (tn : Option String)
    (ed : Option Nat) (now : Nat) (o : Order) (hs : s ≠ "delivered") :
    (applyStatusUpdate s tn ed now o).deliveredAt = o.deliveredAt := by
  rcases tn with _ | t <;> rcases ed with _ | d <;>
    simp only [applyStatusUpdate] <;> split_ifs <;> simp_all

lemma applyStatusUpdate_trackingNumber (s : String) (t : String) (ed : Option Nat)
    (now : Nat) (o : Order) (ht : t ≠ "") :
    (applyStatusUpdate s (some t) ed now o).trackingNumber = some t := by
  rcases ed with _ | d <;>
    simp only [applyStatusUpdate] <;> split_ifs <;> simp_all

lemma applyStatusUpdate_estimatedDelivery (s : String) (tn : Option String)
    (d : Nat) (now : Nat) (o : Order) :
    (applyStatusUpdate s tn (some d) now o).estimatedDelivery = some d := by
  rcases tn with _ | t <;>
    simp only [applyStatusUpdate] <;> split_ifs <;> rfl

/-- C7: the status route (whose requests are all handled by the first
registered handler) stamps `deliveredAt` with the current time exactly when
the new status is `delivered`; for any other status the delivery timestamp is
carried over unchanged — in particular it stays null when it was null — and a
non-empty tracking number or an estimated-delivery date supplied on the same
call is persisted, along with the status itself. -/
theorem delivered_status_stamps_timestamp
    (orders : List Order) (oid : Nat) (status : String)
    (tn : Option String) (ed : Option Nat) (now : Nat) (o : Order)
    (hfind : orders.find? (fun x => x.oid == oid) = some o) :
    dispatchPutStatus orders oid status tn ed now =
      (StatusResp.okResp (applyStatusUpdate status tn ed now o),
        updateOrderById orders oid (applyStatusUpdate status tn ed now)) ∧
    (applyStatusUpdate status tn ed now o).status = status ∧
    (status = "delivered" → (applyStatusUpdate status tn ed now o).deliveredAt = some now) ∧
    (status ≠ "delivered" →
      (applyStatusUpdate status tn ed now o).deliveredAt = o.deliveredAt) ∧
    (status ≠ "delivered" → o.deliveredAt = none →
      (applyStatusUpdate status tn ed now o).deliveredAt = none) ∧
    (∀ t, tn = some t → t ≠ "" →
      (applyStatusUpdate status tn ed now o).trackingNumber = some t) ∧
    (∀ d, ed = some d → (applyStatusUpdate status tn ed now o).estimatedDelivery = some d) := by
  refine ⟨?_, applyStatusUpdate_status status tn ed now o, ?_, ?_, ?_, ?_, ?_⟩
  · show updateStatusHandler1 orders oid status tn ed now = _
    unfold updateStatusHandler1
    rw [hfind]
  · intro hd
    subst hd
    exact applyStatusUpdate_deliveredAt_stamped tn ed now o
  · intro hd
    exact applyStatusUpdate_deliveredAt_preserved status tn ed now o hd
  · intro hd hnone
    rw [applyStatusUpdate_deliveredAt_preserved status tn ed now o hd, hnone]
  · intro t ht hte
    subst ht
    exact applyStatusUpdate_trackingNumber status t ed now o hte
  · intro d hd
    subst hd
    exact applyStatusUpdate_estimatedDelivery status tn d now o

/-- C7 witness: the theorem at a delivered update carrying a tracking number
and an estimated-delivery date, over the one-order store. -/
theorem delivered_status_stamps_timestamp_witness :
    (applyStatusUpdate "delivered" (some "TRK1") (some 99) 5 sampleOrder).status =
      "delivered" ∧
    (applyStatusUpdate "delivered" (some "TRK1") (some 99) 5 sampleOrder).deliveredAt =
      some 5 ∧
    (applyStatusUpdate "delivered" (some "TRK1") (some 99) 5 sampleOrder).trackingNumber =
      some "TRK1" ∧
    (applyStatusUpdate "delivered" (some "TRK1") (some 99) 5 sampleOrder).estimatedDelivery =
      some 99 := by
  have h := delivered_status_stamps_timestamp [sampleOrder] 1 "delivered"
    (some "TRK1") (some 99) 5 sampleOrder (by decide)
  exact ⟨h.2.1, h.2.2.1 rfl, h.2.2.2.2.2.1 "TRK1" rfl (by decide),
    h.2.2.2.2.2.2 99 rfl⟩

lemma orderedQty_nil (pid : Nat) : orderedQty [] pid = 0 := rfl

lemma orderedQty_cons (it : CartItem) (its : List CartItem) (pid : Nat) :
    orderedQty (it :: its) pid =
      (if it.product.pid == pid then it.quantity else 0) + orderedQty its pid := by
  by_cases hp : it.product.pid == pid
  · simp [orderedQty, List.filter_cons, hp]
  · simp only [Bool.not_eq_true] at hp
    simp [orderedQty, List.filter_cons, hp]

/-- The per-line `$inc` loop subtracts, from every product in the store,
exactly the total quantity the cart orders for that product id. -/
lemma applyDecrements_eq : ∀ (items : List CartItem) (ps : List Product),
    applyDecrements ps items =
      ps.map (fun p => { p with stock := p.stock - (orderedQty items p.pid : Int) })
  | [], ps => by
    have hfun : (fun p : Product =>
        { p with stock := p.stock - (orderedQty [] p.pid : Int) }) = id := by
      funext p
      simp [orderedQty_nil]
    rw [hfun, List.map_id]
    rfl
  | it :: its, ps => by
    have hstep : applyDecrements ps (it :: its) =
        applyDecrements (decrementStock ps it.product.pid it.quantity) its := rfl
    rw [hstep, applyDecrements_eq its, decrementStock, List.map_map]
    have hfun : ((fun p : Product =>
          { p with stock := p.stock - (orderedQty its p.pid : Int) }) ∘
        (fun p : Product =>
          if p.pid == it.product.pid then { p with stock := p.stock - (it.quantity : Int) }
          else p)) =
        (fun p : Product =>
          { p with stock := p.stock - (orderedQty (it :: its) p.pid : Int) }) := by
      funext p
      by_cases hp : p.pid = it.product.pid
      · have hb1 : (p.pid == it.product.pid) = true := by
          simp [hp]
        have hb2 : (it.product.pid == p.pid) = true := by
          simp [hp]
        simp only [Function.comp, hb1, if_true, orderedQty_cons, hb2]
        simp [sub_sub]
      · have hb1 : (p.pid == it.product.pid) = false := by
          simp [hp]
        have hb2 : (it.product.pid == p.pid) = false := by
          simp
          omega
        simp only [Function.comp, hb1, Bool.false_eq_true, if_false, orderedQty_cons, hb2]
        simp
    rw [hfun]

/-- C4: when order creation succeeds, the post-state has the originating cart
emptied of line items (the cart document itself survives, with the derived
subtotal reset), every product's stock lowered by exactly the total quantity
the cart ordered for it — so a product referenced by no cart line is
unchanged — and the new order appended to the collection. -/
theorem successful_order_clears_cart_and_decrements_stock
    (user : UserDoc) (store : OrdersStore) (cart : Cart)
    (now : Nat) (rand pm : String) (oid : Nat) (o : Order) (st2 : OrdersStore)
    (hcart : store.cart = some cart)
    (h : createOrderHandler (some user) store now rand pm oid = (CreateResp.created o, st2)) :
    st2.cart = some { cart with items := [], subtotal := 0 } ∧
    st2.products = store.products.map
      (fun p => { p with stock := p.stock - (orderedQty cart.items p.pid : Int) }) ∧
    (∀ p ∈ store.products,
      (∀ it ∈ cart.items, it.product.pid ≠ p.pid) → p ∈ st2.products) ∧
    st2.orders = store.orders ++ [o] := by
  rw [createOrderHandler, hcart] at h
  dsimp only [] at h
  by_cases he : cart.items.isEmpty
  · rw [if_pos he] at h
    exact absurd h (by simp)
  · rw [if_neg he] at h
    rcases hf : cart.items.find?
        (fun it => decide (it.product.stock < (it.quantity : Int))) with _ | it
    · rw [hf] at h
      simp only [Prod.mk.injEq, CreateResp.created.injEq] at h
      obtain ⟨ho, hst⟩ := h
      subst hst
      refine ⟨rfl, applyDecrements_eq cart.items store.products, ?_, by rw [ho]⟩
      intro p hp hnone
      have hq : orderedQty cart.items p.pid = 0 := by
        have hfilter : cart.items.filter (fun x => x.product.pid == p.pid) = [] := by
          rw [List.filter_eq_nil_iff]
          intro x hx
          simp [hnone x hx]
        rw [orderedQty, hfilter]
        rfl
      have himg : { p with stock := p.stock - (orderedQty cart.items p.pid : Int) } = p := by
        rw [hq]
        simp
      rw [applyDecrements_eq cart.items store.products]
      exact List.mem_map.mpr ⟨p, hp, himg⟩
    · rw [hf] at h
      exact absurd h (by simp)

/-- C4 witness: the concrete checkout — the cart is emptied, the ordered
product's stock drops from 5 to 3 by the ordered quantity 2, and the
unordered product keeps its stock. -/
theorem successful_order_clears_cart_and_decrements_stock_witness :
    sampleNewStore.cart = some { sampleCart with items := [], subtotal := 0 } ∧
    sampleNewStore.products = sampleStore.products.map
      (fun p => { p with stock := p.stock - (orderedQty sampleCart.items p.pid : Int) }) ∧
    sampleNewStore.orders = sampleStore.orders ++ [sampleCreatedOrder] := by
  have h := successful_order_clears_cart_and_decrements_stock sampleUser sampleStore
    sampleCart 0 "X" "upi" 9 sampleCreatedOrder sampleNewStore rfl (by decide)
  exact ⟨h.1, h.2.1, h.2.2.2⟩

/-- `Math.ceil(n / l)` over the reals agrees with the `(n + l - 1) / l`
truncating-division formula for a positive page size. -/
lemma ceil_div_formula (n l : Nat) (h : 0 < l) :
    (n + l - 1) / l = Nat.ceil ((n : ℚ) / (l : ℚ)) := by
  refine eq_of_forall_ge_iff (fun c => ?_)
  rw [Nat.div_le_iff_le_mul_add_pred h, Nat.ceil_le, div_le_iff₀ (by exact_mod_cast h)]
  have hcast : ((n : ℚ) ≤ (c : ℚ) * (l : ℚ)) ↔ n ≤ c * l := by
    exact_mod_cast Iff.rfl
  rw [hcast, Nat.mul_comm]
  omega

/-- C6: the admin listing with page `p` and page size `l` over `n` matching
orders reports `currentPage = p`, `totalPages = ceil(n / l)`,
`totalOrders = n`, `hasNext` exactly when `p * l < n`, `hasPrev` exactly when
`p > 1`, and returns the page slice of the matching orders sorted newest
first. -/
theorem admin_listing_pagination (orders : List Order) (q : RawQuery) (p l : Nat)
    (hp : q.page = some p) (hl : q.limit = some l) (hl0 : 0 < l) :
    (adminAllHandler orders q).pagination.currentPage = p ∧
    (adminAllHandler orders q).pagination.totalPages =
      Nat.ceil (((orders.filter (matchesQuery q)).length : ℚ) / (l : ℚ)) ∧
    (adminAllHandler orders q).pagination.totalOrders =
      (orders.filter (matchesQuery q)).length ∧
    ((adminAllHandler orders q).pagination.hasNext = true ↔
      p * l < (orders.filter (matchesQuery q)).length) ∧
    ((adminAllHandler orders q).pagination.hasPrev = true ↔ 1 < p) ∧
    (adminAllHandler orders q).orders =
      ((sortByRecency (orders.filter (matchesQuery q))).drop ((p - 1) * l)).take l ∧
    List.Sorted moreRecent (adminAllHandler orders q).orders := by
  refine ⟨?_, ?_, ?_, ?_, ?_, ?_, ?_⟩
  · simp [adminAllHandler, hp]
  · simp only [adminAllHandler, hp, hl, Option.getD_some]
    exact ceil_div_formula (orders.filter (matchesQuery q)).length l hl0
  · simp [adminAllHandler]
  · simp [adminAllHandler, hp, hl]
  · simp [adminAllHandler, hp]
  · simp [adminAllHandler, hp, hl]
  · simp only [adminAllHandler]
    exact (List.sorted_insertionSort moreRecent _).sublist
      ((List.take_sublist _ _).trans (List.drop_sublist _ _))

/-- A second persisted order, more recent than `sampleOrder`. -/
def sampleOrderB : Order :=
  { sampleOrder with
      oid := 4
      orderNumber := "ORD-8-B"
      status := "confirmed"
      total := 700
      createdAt := 8 }

/-- A third persisted order, the most recent. -/
def sampleOrderC : Order :=
  { sampleOrder with
      oid := 5
      orderNumber := "ORD-9-C"
      status := "shipped"
      total := 900
      createdAt := 9 }

/-- The listing query: page 1, page size 2, no filters. -/
def sampleListingQuery : RawQuery :=
  { page := some 1, limit := some 2, status := none, search := none,
    startDate := none, endDate := none }

/-- C6 witness: the theorem over three concrete orders at page 1 of size 2. -/
theorem admin_listing_pagination_witness :
    (adminAllHandler [sampleOrder, sampleOrderB, sampleOrderC] sampleListingQuery).pagination.currentPage = 1 ∧
    (adminAllHandler [sampleOrder, sampleOrderB, sampleOrderC] sampleListingQuery).pagination.totalPages =
      Nat.ceil (((([sampleOrder, sampleOrderB, sampleOrderC] : List Order).filter
        (matchesQuery sampleListingQuery)).length : ℚ) / ((2 : Nat) : ℚ)) ∧
    ((adminAllHandler [sampleOrder, sampleOrderB, sampleOrderC] sampleListingQuery).pagination.hasNext = true ↔
      1 * 2 < (([sampleOrder, sampleOrderB, sampleOrderC] : List Order).filter
        (matchesQuery sampleListingQuery)).length) ∧
    List.Sorted moreRecent
      (adminAllHandler [sampleOrder, sampleOrderB, sampleOrderC] sampleListingQuery).orders := by
  have h := admin_listing_pagination [sampleOrder, sampleOrderB, sampleOrderC]
    sampleListingQuery 1 2 rfl rfl (by decide)
  exact ⟨h.1, h.2.1, h.2.2.2.1, h.2.2.2.2.2.2⟩

end SSD
